import Mathlib

/-!
Shallow embedding of `options-pricing/core/instruments.py`.

Modelling conventions:
* Python `float` values (spot, strike, notional, year fractions) are modelled
  as exact rationals `ℚ`; every float operation in the source is an integer
  division by a positive constant, which is sign- and equality-faithful.
* Python `datetime.date` is modelled by the `Date` structure together with the
  validity predicate `Date.Valid` (CPython requires `1 ≤ year ≤ 9999` and a
  day-of-month valid for the month/year).  Date subtraction `(end - start).days`
  is the difference of proleptic-Gregorian ordinals, as in CPython's
  `date.toordinal`; `toOrdinal` below reproduces CPython's
  `_days_before_year`/`_days_before_month` arithmetic.
* Python exceptions are modelled by `Except PyErr`; `ValueError` and
  `TypeError` become the two constructors of `PyErr`.
* Python's `repr` of the short quote-free strings occurring here is the string
  wrapped in single quotes (`pyRepr`).
-/

instance {ε α : Type} [DecidableEq ε] [DecidableEq α] : DecidableEq (Except ε α) :=
  fun x y =>
    match x, y with
    | .ok a, .ok b =>
        if h : a = b then .isTrue (by rw [h])
        else .isFalse (by intro hc; cases hc; exact h rfl)
    | .error a, .error b =>
        if h : a = b then .isTrue (by rw [h])
        else .isFalse (by intro hc; cases hc; exact h rfl)
    | .ok _, .error _ => .isFalse (by intro hc; cases hc)
    | .error _, .ok _ => .isFalse (by intro hc; cases hc)

/-- Errors raised by the module: `ValueError` and `TypeError`. -/
inductive PyErr where
  | valueError (msg : String) : PyErr
  | typeError (msg : String) : PyErr
  deriving DecidableEq, Repr

/-- Python `str.lower()` (ASCII case mapping, which covers every string the
module compares against). -/
def pyLower (s : String) : String := ⟨s.data.map Char.toLower⟩

/-- Python `str.upper()` (ASCII case mapping). -/
def pyUpper (s : String) : String := ⟨s.data.map Char.toUpper⟩

/-- Python `str.strip()`: remove leading and trailing whitespace. -/
def pyStrip (s : String) : String :=
  ⟨((s.data.dropWhile Char.isWhitespace).reverse.dropWhile Char.isWhitespace).reverse⟩

/-- The single-quote character, `'`. -/
def squote : String := String.singleton (Char.ofNat 39)

/-- Python `repr` of a short string containing no quotes or escapes. -/
def pyRepr (s : String) : String := squote ++ s ++ squote

/-- `OptionType`: call or put. -/
inductive OptionType where
  | CALL : OptionType
  | PUT : OptionType
  deriving DecidableEq, Repr

/-- The `str` value of each `OptionType` member. -/
def OptionType.value : OptionType → String
  | .CALL => "call"
  | .PUT => "put"

/-- The alias match of `OptionType.from_str`, applied to the already
normalized (lower-cased, stripped) string `v`. -/
def OptionType.classify (v : String) : Except PyErr OptionType :=
  if v = "c" ∨ v = "call" then .ok .CALL
  else if v = "p" ∨ v = "put" then .ok .PUT
  else .error (.valueError ("Unknown option type: " ++ pyRepr v))

/-- `OptionType.from_str`: case-insensitive constructor from a string.
Normalizes with `value.lower().strip()` and matches the alias table;
the error message interpolates the normalized `value`. -/
def OptionType.fromStr (value : String) : Except PyErr OptionType :=
  OptionType.classify (pyStrip (pyLower value))

/-- `OptionStyle`: exercise style of the option. -/
inductive OptionStyle where
  | EUROPEAN : OptionStyle
  | AMERICAN : OptionStyle
  | BERMUDAN : OptionStyle
  deriving DecidableEq, Repr

/-- The `str` value of each `OptionStyle` member. -/
def OptionStyle.value : OptionStyle → String
  | .EUROPEAN => "european"
  | .AMERICAN => "american"
  | .BERMUDAN => "bermudan"

/-- The alias match of `OptionStyle.from_str` on the normalized string. -/
def OptionStyle.classify (v : String) : Except PyErr OptionStyle :=
  if v = "e" ∨ v = "euro" ∨ v = "european" then .ok .EUROPEAN
  else if v = "a" ∨ v = "amer" ∨ v = "american" then .ok .AMERICAN
  else if v = "b" ∨ v = "bermudan" then .ok .BERMUDAN
  else .error (.valueError ("Unknown option style: " ++ pyRepr v))

/-- `OptionStyle.from_str`. -/
def OptionStyle.fromStr (value : String) : Except PyErr OptionStyle :=
  OptionStyle.classify (pyStrip (pyLower value))

/-- `Underlying`: frozen dataclass with fields stored verbatim. -/
structure Underlying where
  symbol : String
  spot : ℚ
  currency : String
  asset_type : String
  deriving DecidableEq, Repr

/-- `Underlying(...)`: dataclass construction followed by `__post_init__`,
which checks `spot > 0`. -/
def Underlying.make (symbol : String) (spot : ℚ)
    (currency : String := "EUR") (asset_type : String := "equity") :
    Except PyErr Underlying :=
  if spot ≤ 0 then
    .error (.valueError "Underlying spot must be strictly positive.")
  else
    .ok ⟨symbol, spot, currency, asset_type⟩

/-- A calendar date: year, month, day fields of `datetime.date`. -/
structure Date where
  year : ℕ
  month : ℕ
  day : ℕ
  deriving DecidableEq, Repr

/-- CPython `_is_leap`: Gregorian leap-year test. -/
def isLeap (y : ℕ) : Bool :=
  (y % 4 == 0 && y % 100 != 0) || (y % 400 == 0)

/-- Length of month `m` (1-12) given the leap flag of its year. -/
def monthLen (b : Bool) (m : ℕ) : ℕ :=
  if m = 2 then (if b then 29 else 28)
  else if m = 4 ∨ m = 6 ∨ m = 9 ∨ m = 11 then 30
  else 31

/-- Number of days in month `m` of year `y`. -/
def daysInMonth (y m : ℕ) : ℕ := monthLen (isLeap y) m

/-- CPython `_DAYS_BEFORE_MONTH`: cumulative non-leap day counts. -/
def daysBeforeMonthBase : ℕ → ℕ
  | 1 => 0
  | 2 => 31
  | 3 => 59
  | 4 => 90
  | 5 => 120
  | 6 => 151
  | 7 => 181
  | 8 => 212
  | 9 => 243
  | 10 => 273
  | 11 => 304
  | 12 => 334
  | _ => 0

/-- Days before month `m` in a year with leap flag `b`. -/
def daysBeforeMonthAux (b : Bool) (m : ℕ) : ℕ :=
  daysBeforeMonthBase m + (if 2 < m ∧ b = true then 1 else 0)

/-- CPython `_days_before_month`. -/
def daysBeforeMonth (y m : ℕ) : ℕ := daysBeforeMonthAux (isLeap y) m

/-- Number of leap days among years `1..n`: `n/4 - n/100 + n/400`. -/
def leapDays (n : ℕ) : ℤ := ((n / 4 : ℕ) : ℤ) - ((n / 100 : ℕ) : ℤ) + ((n / 400 : ℕ) : ℤ)

/-- CPython `_days_before_year`: days before January 1 of year `y`. -/
def daysBeforeYear (y : ℕ) : ℤ := 365 * ((y : ℤ) - 1) + leapDays (y - 1)

/-- CPython `date.toordinal`: proleptic Gregorian ordinal
(`date(1,1,1).toordinal() == 1`).  Date subtraction `(b - a).days` is
`toOrdinal b - toOrdinal a`. -/
def toOrdinal (d : Date) : ℤ :=
  daysBeforeYear d.year + (daysBeforeMonth d.year d.month : ℤ) + (d.day : ℤ)

/-- A valid `datetime.date` value. -/
def Date.Valid (d : Date) : Prop :=
  1 ≤ d.year ∧ d.year ≤ 9999 ∧ 1 ≤ d.month ∧ d.month ≤ 12 ∧
    1 ≤ d.day ∧ d.day ≤ daysInMonth d.year d.month

instance (d : Date) : Decidable d.Valid := by
  unfold Date.Valid; infer_instance

/-- Chronological (lexicographic) strict order on dates, `a < b`. -/
def Date.lt (a b : Date) : Prop :=
  a.year < b.year ∨
    (a.year = b.year ∧
      (a.month < b.month ∨ (a.month = b.month ∧ a.day < b.day)))

instance (a b : Date) : Decidable (Date.lt a b) := by
  unfold Date.lt; infer_instance

/-- `year_fraction(start, end, day_count)` from `instruments.py`. -/
def year_fraction (startD endD : Date) (day_count : String := "ACT/365") :
    Except PyErr ℚ :=
  let dc := pyUpper day_count
  if dc = "ACT/365" then
    .ok (((toOrdinal endD - toOrdinal startD : ℤ) : ℚ) / 365)
  else if dc = "ACT/360" then
    .ok (((toOrdinal endD - toOrdinal startD : ℤ) : ℚ) / 360)
  else if dc = "30/360" then
    let d1 : ℤ := min (startD.day : ℤ) 30
    let d2 : ℤ := min (endD.day : ℤ) 30
    let days : ℤ :=
      ((endD.year : ℤ) - (startD.year : ℤ)) * 360
        + ((endD.month : ℤ) - (startD.month : ℤ)) * 30
        + (d2 - d1)
    .ok ((days : ℚ) / 360)
  else
    .error (.valueError ("Unsupported day count convention: " ++ pyRepr day_count))

/-- The stylized 30/360 day count of `year_fraction`:
`(end.year - start.year)*360 + (end.month - start.month)*30
  + (min(end.day,30) - min(start.day,30))`. -/
def days30360 (a b : Date) : ℤ :=
  ((b.year : ℤ) - (a.year : ℤ)) * 360 + ((b.month : ℤ) - (a.month : ℤ)) * 30
    + (min (b.day : ℤ) 30 - min (a.day : ℤ) 30)

/-- The `maturity` argument as the dynamically typed Python value it is:
`None`, a `date`, or some non-date object (carrying a description). -/
inductive MaturityArg where
  | pyNone : MaturityArg
  | pyDate (d : Date) : MaturityArg
  | nonDate (descr : String) : MaturityArg
  deriving DecidableEq, Repr

/-- The `option_type` argument: either an `OptionType` member or a string. -/
inductive OptionTypeArg where
  | enum (t : OptionType) : OptionTypeArg
  | str (s : String) : OptionTypeArg
  deriving DecidableEq, Repr

/-- The `isinstance(option_type, str)` normalization step shared by
`EuropeanOption.__init__` and `AmericanOption.__init__`. -/
def resolveOptionType : OptionTypeArg → Except PyErr OptionType
  | .enum t => .ok t
  | .str s => OptionType.fromStr s

/-- `BaseOption`: frozen dataclass fields. -/
structure BaseOption where
  underlying : Underlying
  strike : ℚ
  maturity : MaturityArg
  option_type : OptionType
  style : OptionStyle
  notional : ℚ
  deriving DecidableEq, Repr

/-- `BaseOption.__post_init__`: the shared validation run on construction. -/
def BaseOption.postInit (o : BaseOption) : Except PyErr BaseOption :=
  if o.strike ≤ 0 then
    .error (.valueError "Strike must be strictly positive.")
  else if o.maturity = .pyNone then
    .error (.valueError "Maturity date must be provided.")
  else if o.notional ≤ 0 then
    .error (.valueError "Notional must be strictly positive.")
  else
    .ok o

/-- `BaseOption(...)`: the dataclass-generated constructor (all fields,
including `style`) followed by `__post_init__`. -/
def BaseOption.make (u : Underlying) (strike : ℚ) (maturity : MaturityArg)
    (ot : OptionType) (style : OptionStyle) (notional : ℚ := 1) :
    Except PyErr BaseOption :=
  BaseOption.postInit ⟨u, strike, maturity, ot, style, notional⟩

/-- `EuropeanOption.__init__`: parses a string `option_type`, fixes
`style = EUROPEAN`, then runs `__post_init__`. -/
def EuropeanOption.make (u : Underlying) (strike : ℚ) (maturity : MaturityArg)
    (ot : OptionTypeArg) (notional : ℚ := 1) : Except PyErr BaseOption := do
  let t ← resolveOptionType ot
  BaseOption.postInit ⟨u, strike, maturity, t, .EUROPEAN, notional⟩

/-- `AmericanOption.__init__`: parses a string `option_type`, fixes
`style = AMERICAN`, then runs `__post_init__`. -/
def AmericanOption.make (u : Underlying) (strike : ℚ) (maturity : MaturityArg)
    (ot : OptionTypeArg) (notional : ℚ := 1) : Except PyErr BaseOption := do
  let t ← resolveOptionType ot
  BaseOption.postInit ⟨u, strike, maturity, t, .AMERICAN, notional⟩

/-- The calendar day after `d` (Gregorian successor). -/
def Date.nextDay (d : Date) : Date :=
  if d.day < daysInMonth d.year d.month then ⟨d.year, d.month, d.day + 1⟩
  else if d.month < 12 then ⟨d.year, d.month + 1, 1⟩
  else ⟨d.year + 1, 1, 1⟩

/-- The leap-day contribution of year `y`: `1` on leap years, else `0`. -/
def leapFlag (y : ℕ) : ℕ := if isLeap y then 1 else 0

lemma daysBeforeYear_succ (y : ℕ) (hy : 1 ≤ y) :
    daysBeforeYear (y + 1) = daysBeforeYear y + 365 + (leapFlag y : ℤ) := by
  unfold daysBeforeYear leapDays leapFlag isLeap
  simp only [Bool.or_eq_true, Bool.and_eq_true, beq_iff_eq, bne_iff_ne, ne_eq]
  split_ifs with h <;> omega

lemma daysBeforeYear_ge (y z : ℕ) (hy : 1 ≤ y) (hz : y < z) :
    daysBeforeYear y + 365 + (leapFlag y : ℤ) ≤ daysBeforeYear z := by
  induction z, hz using Nat.le_induction with
  | base => rw [daysBeforeYear_succ y hy]
  | succ n hn ih =>
      rw [daysBeforeYear_succ n (by omega)]
      omega

lemma monAux_bound : ∀ b : Bool, ∀ m : Fin 13, 1 ≤ (m : ℕ) →
    daysBeforeMonthAux b (m : ℕ) + monthLen b (m : ℕ)
      ≤ 365 + (if b then 1 else 0) := by
  decide

lemma monAux_mono : ∀ b : Bool, ∀ m1 m2 : Fin 13, 1 ≤ (m1 : ℕ) → (m1 : ℕ) < (m2 : ℕ) →
    daysBeforeMonthAux b (m1 : ℕ) + monthLen b (m1 : ℕ)
      ≤ daysBeforeMonthAux b (m2 : ℕ) := by
  decide

lemma monthLen_le_31 : ∀ b : Bool, ∀ m : Fin 13, monthLen b (m : ℕ) ≤ 31 := by
  decide

lemma monAux_succ : ∀ b : Bool, ∀ m : Fin 13, 1 ≤ (m : ℕ) → (m : ℕ) < 12 →
    daysBeforeMonthAux b ((m : ℕ) + 1)
      = daysBeforeMonthAux b (m : ℕ) + monthLen b (m : ℕ) := by
  decide

lemma monAux_last : ∀ b : Bool, daysBeforeMonthAux b 12 + monthLen b 12
    = 365 + (if b then 1 else 0) := by
  decide

lemma daysInMonth_le_31 (y m : ℕ) (hm : m ≤ 12) : daysInMonth y m ≤ 31 := by
  have := monthLen_le_31 (isLeap y) ⟨m, by omega⟩
  simpa [daysInMonth] using this

lemma daysBeforeMonth_add_le (y m : ℕ) (h1 : 1 ≤ m) (h2 : m ≤ 12) :
    daysBeforeMonth y m + daysInMonth y m ≤ 365 + leapFlag y := by
  unfold daysBeforeMonth daysInMonth leapFlag
  generalize isLeap y = b
  have h := monAux_bound b ⟨m, by omega⟩ (by simpa using h1)
  simp only [Fin.val_mk] at h
  cases b <;> simpa using h

lemma daysBeforeMonth_mono (y m1 m2 : ℕ) (h1 : 1 ≤ m1) (hlt : m1 < m2) (h2 : m2 ≤ 12) :
    daysBeforeMonth y m1 + daysInMonth y m1 ≤ daysBeforeMonth y m2 := by
  have h := monAux_mono (isLeap y) ⟨m1, by omega⟩ ⟨m2, by omega⟩
    (by simpa using h1) (by simpa using hlt)
  simpa [daysBeforeMonth, daysInMonth] using h

/-- Strict monotonicity of the proleptic-Gregorian ordinal with respect to
chronological date order. -/
theorem toOrdinal_lt_toOrdinal (a b : Date) (ha : a.Valid) (hb : b.Valid)
    (h : Date.lt a b) : toOrdinal a < toOrdinal b := by
  obtain ⟨ha1, ha9, ham1, ham12, had1, had2⟩ := ha
  obtain ⟨hb1, hb9, hbm1, hbm12, hbd1, hbd2⟩ := hb
  unfold toOrdinal
  rcases h with hy | ⟨hyeq, hm | ⟨hmeq, hd⟩⟩
  · have hbound := daysBeforeMonth_add_le a.year a.month ham1 ham12
    have hge := daysBeforeYear_ge a.year b.year ha1 hy
    omega
  · rw [← hyeq] at hbd2 ⊢
    have hmono := daysBeforeMonth_mono a.year a.month b.month ham1 hm hbm12
    omega
  · rw [← hyeq, ← hmeq]
    omega

lemma daysBeforeMonth_succ (y m : ℕ) (h1 : 1 ≤ m) (h2 : m < 12) :
    daysBeforeMonth y (m + 1) = daysBeforeMonth y m + daysInMonth y m := by
  have h := monAux_succ (isLeap y) ⟨m, by omega⟩ (by simpa using h1) (by simpa using h2)
  simpa [daysBeforeMonth, daysInMonth] using h

lemma daysBeforeMonth_last (y : ℕ) :
    daysBeforeMonth y 12 + daysInMonth y 12 = 365 + leapFlag y := by
  unfold daysBeforeMonth daysInMonth leapFlag
  generalize isLeap y = b
  have h := monAux_last b
  cases b <;> simpa using h

lemma daysBeforeMonth_one (y : ℕ) : daysBeforeMonth y 1 = 0 := rfl

/-- The ordinal of the next calendar day is one more: `toOrdinal`
counts actual elapsed days. -/
theorem toOrdinal_nextDay (d : Date) (h : d.Valid) :
    toOrdinal d.nextDay = toOrdinal d + 1 := by
  obtain ⟨h1, h9, hm1, hm12, hd1, hd2⟩ := h
  unfold Date.nextDay
  split_ifs with hlt hm
  · simp only [toOrdinal]
    omega
  · have hday : d.day = daysInMonth d.year d.month := by omega
    have hsucc := daysBeforeMonth_succ d.year d.month hm1 hm
    simp only [toOrdinal]
    omega
  · have hmeq : d.month = 12 := by omega
    have hday : d.day = daysInMonth d.year d.month := by omega
    have hlast := daysBeforeMonth_last d.year
    have hdby := daysBeforeYear_succ d.year h1
    have hone := daysBeforeMonth_one (d.year + 1)
    simp only [toOrdinal]
    rw [hmeq] at hday ⊢
    omega

lemma year_fraction_act365 (a b : Date) :
    year_fraction a b "ACT/365" = .ok (((toOrdinal b - toOrdinal a : ℤ) : ℚ) / 365) := rfl

lemma year_fraction_act360 (a b : Date) :
    year_fraction a b "ACT/360" = .ok (((toOrdinal b - toOrdinal a : ℤ) : ℚ) / 360) := rfl

lemma year_fraction_30360 (a b : Date) :
    year_fraction a b "30/360" = .ok ((days30360 a b : ℚ) / 360) := rfl

lemma year_fraction_unsupported (a b : Date) (dc : String)
    (h1 : pyUpper dc ≠ "ACT/365") (h2 : pyUpper dc ≠ "ACT/360")
    (h3 : pyUpper dc ≠ "30/360") :
    year_fraction a b dc
      = .error (.valueError ("Unsupported day count convention: " ++ pyRepr dc)) := by
  simp only [year_fraction]
  rw [if_neg h1, if_neg h2, if_neg h3]

lemma days30360_nonneg (a b : Date) (ha : a.Valid) (hb : b.Valid) (h : Date.lt a b) :
    0 ≤ days30360 a b := by
  obtain ⟨ha1, ha9, ham1, ham12, had1, had2⟩ := ha
  obtain ⟨hb1, hb9, hbm1, hbm12, hbd1, hbd2⟩ := hb
  have hda : a.day ≤ 31 := had2.trans (daysInMonth_le_31 a.year a.month ham12)
  have hdb : b.day ≤ 31 := hbd2.trans (daysInMonth_le_31 b.year b.month hbm12)
  unfold days30360
  rcases h with hy | ⟨hyeq, hm | ⟨hmeq, hd⟩⟩ <;> omega

lemma days30360_antisymm (a b : Date) : days30360 b a = - days30360 a b := by
  unfold days30360; ring

/-- C1 counterexample: 2024-01-30 and 2024-01-31 are valid dates with the
first strictly before the second, yet `year_fraction` under 30/360 returns
exactly `0`, which is not strictly positive: the clamping `min(day, 30)`
collapses day 30 and day 31 of the same month. -/
theorem yf_30360_sign_counterexample :
    (⟨2024, 1, 30⟩ : Date).Valid ∧ (⟨2024, 1, 31⟩ : Date).Valid ∧
    Date.lt ⟨2024, 1, 30⟩ ⟨2024, 1, 31⟩ ∧
    year_fraction ⟨2024, 1, 30⟩ ⟨2024, 1, 31⟩ "30/360" = .ok 0 ∧
    ¬ (0 : ℚ) < 0 := by
  refine ⟨by decide, by decide, by decide, ?_, by norm_num⟩
  rw [year_fraction_30360]
  have h : days30360 ⟨2024, 1, 30⟩ ⟨2024, 1, 31⟩ = 0 := by decide
  rw [h]; norm_num

/-- C1 (amended): for valid dates `a < b`, `year_fraction a b` is strictly
positive under ACT/365 and ACT/360 and nonnegative (possibly zero) under
30/360; in the reversed order it is strictly negative under ACT/365 and
ACT/360 and nonpositive under 30/360. -/
theorem year_fraction_sign (a b : Date) (ha : a.Valid) (hb : b.Valid)
    (hab : Date.lt a b) :
    (∃ q, year_fraction a b "ACT/365" = .ok q ∧ 0 < q) ∧
    (∃ q, year_fraction a b "ACT/360" = .ok q ∧ 0 < q) ∧
    (∃ q, year_fraction a b "30/360" = .ok q ∧ 0 ≤ q) ∧
    (∃ q, year_fraction b a "ACT/365" = .ok q ∧ q < 0) ∧
    (∃ q, year_fraction b a "ACT/360" = .ok q ∧ q < 0) ∧
    (∃ q, year_fraction b a "30/360" = .ok q ∧ q ≤ 0) := by
  have hord := toOrdinal_lt_toOrdinal a b ha hb hab
  have hpos : (0 : ℚ) < ((toOrdinal b - toOrdinal a : ℤ) : ℚ) := by
    exact_mod_cast sub_pos.mpr hord
  have hneg : ((toOrdinal a - toOrdinal b : ℤ) : ℚ) < 0 := by
    exact_mod_cast sub_neg.mpr hord
  have h30 : (0 : ℚ) ≤ ((days30360 a b : ℤ) : ℚ) := by
    exact_mod_cast days30360_nonneg a b ha hb hab
  have heq : ((days30360 b a : ℤ) : ℚ) / 360 = -(((days30360 a b : ℤ) : ℚ) / 360) := by
    rw [days30360_antisymm]; push_cast; ring
  exact ⟨⟨_, year_fraction_act365 a b, div_pos hpos (by norm_num)⟩,
    ⟨_, year_fraction_act360 a b, div_pos hpos (by norm_num)⟩,
    ⟨_, year_fraction_30360 a b, div_nonneg h30 (by norm_num)⟩,
    ⟨_, year_fraction_act365 b a, div_neg_of_neg_of_pos hneg (by norm_num)⟩,
    ⟨_, year_fraction_act360 b a, div_neg_of_neg_of_pos hneg (by norm_num)⟩,
    ⟨_, year_fraction_30360 b a, by
      rw [heq]; exact neg_nonpos.mpr (div_nonneg h30 (by norm_num))⟩⟩

/-- C1 witness: the amended sign property evaluated across the 2024 leap
day, 2024-02-28 < 2024-03-01. -/
theorem year_fraction_sign_witness :
    (∃ q, year_fraction ⟨2024, 2, 28⟩ ⟨2024, 3, 1⟩ "ACT/365" = .ok q ∧ 0 < q) ∧
    (∃ q, year_fraction ⟨2024, 2, 28⟩ ⟨2024, 3, 1⟩ "ACT/360" = .ok q ∧ 0 < q) ∧
    (∃ q, year_fraction ⟨2024, 2, 28⟩ ⟨2024, 3, 1⟩ "30/360" = .ok q ∧ 0 ≤ q) ∧
    (∃ q, year_fraction ⟨2024, 3, 1⟩ ⟨2024, 2, 28⟩ "ACT/365" = .ok q ∧ q < 0) ∧
    (∃ q, year_fraction ⟨2024, 3, 1⟩ ⟨2024, 2, 28⟩ "ACT/360" = .ok q ∧ q < 0) ∧
    (∃ q, year_fraction ⟨2024, 3, 1⟩ ⟨2024, 2, 28⟩ "30/360" = .ok q ∧ q ≤ 0) :=
  year_fraction_sign ⟨2024, 2, 28⟩ ⟨2024, 3, 1⟩ (by decide) (by decide) (by decide)

/-- C9: the 30/360 convention is exactly antisymmetric: swapping the two
dates always succeeds and negates the result, because the stylized day count
is an antisymmetric expression in the clamped date components. -/
theorem yf_30360_antisymm (a b : Date) (ha : a.Valid) (hb : b.Valid) :
    ∃ q, year_fraction a b "30/360" = .ok q ∧
      year_fraction b a "30/360" = .ok (-q) := by
  refine ⟨(days30360 a b : ℚ) / 360, year_fraction_30360 a b, ?_⟩
  rw [year_fraction_30360 b a]
  congr 1
  rw [days30360_antisymm]; push_cast; ring

/-- C9 witness: antisymmetry at the month-end pair 2024-01-31, 2024-03-30. -/
theorem yf_30360_antisymm_witness :
    ∃ q, year_fraction ⟨2024, 1, 31⟩ ⟨2024, 3, 30⟩ "30/360" = .ok q ∧
      year_fraction ⟨2024, 3, 30⟩ ⟨2024, 1, 31⟩ "30/360" = .ok (-q) :=
  yf_30360_antisymm ⟨2024, 1, 31⟩ ⟨2024, 3, 30⟩ (by decide) (by decide)

/-- C4: for every pair of valid dates, the 30/360 result is exactly
`((end.year - start.year)*360 + (end.month - start.month)*30
  + (min(end.day,30) - min(start.day,30))) / 360`, with no end-of-February
adjustment; in particular 2024-01-01 to 2024-07-01 gives exactly 1/2. -/
theorem yf_30360_formula (a b : Date) (ha : a.Valid) (hb : b.Valid) :
    year_fraction a b "30/360"
      = .ok (((((b.year : ℤ) - (a.year : ℤ)) * 360
          + ((b.month : ℤ) - (a.month : ℤ)) * 30
          + (min (b.day : ℤ) 30 - min (a.day : ℤ) 30) : ℤ) : ℚ) / 360) ∧
    year_fraction ⟨2024, 1, 1⟩ ⟨2024, 7, 1⟩ "30/360" = .ok (1 / 2) := by
  refine ⟨rfl, ?_⟩
  rw [year_fraction_30360]
  have h : days30360 ⟨2024, 1, 1⟩ ⟨2024, 7, 1⟩ = 180 := by decide
  rw [h]; norm_num

/-- C4 witness: the 30/360 formula evaluated at 2023-05-31 to 2024-02-29
(day clamped to 30, February not adjusted: 360 - 90 - 1 = 269 days). -/
theorem yf_30360_formula_witness :
    year_fraction ⟨2023, 5, 31⟩ ⟨2024, 2, 29⟩ "30/360" = .ok ((269 : ℚ) / 360) ∧
    year_fraction ⟨2024, 1, 1⟩ ⟨2024, 7, 1⟩ "30/360" = .ok (1 / 2) := by
  obtain ⟨h1, h2⟩ := yf_30360_formula ⟨2023, 5, 31⟩ ⟨2024, 2, 29⟩ (by decide) (by decide)
  refine ⟨?_, h2⟩
  rw [h1]
  congr 1

/-- C5: under ACT/365 and ACT/360 the result is the actual whole-calendar-day
difference (difference of Gregorian ordinals; stepping one calendar day
changes the ordinal by exactly one) divided by 365 resp. 360; over the 2024
leap year 2024-01-01 to 2025-01-01 spans 366 actual days, giving 366/365. -/
theorem yf_act_formula (a b : Date) (ha : a.Valid) (hb : b.Valid) :
    year_fraction a b "ACT/365" = .ok (((toOrdinal b - toOrdinal a : ℤ) : ℚ) / 365) ∧
    year_fraction a b "ACT/360" = .ok (((toOrdinal b - toOrdinal a : ℤ) : ℚ) / 360) ∧
    (∀ d : Date, d.Valid → toOrdinal d.nextDay = toOrdinal d + 1) ∧
    toOrdinal ⟨2025, 1, 1⟩ - toOrdinal ⟨2024, 1, 1⟩ = 366 ∧
    year_fraction ⟨2024, 1, 1⟩ ⟨2025, 1, 1⟩ "ACT/365" = .ok (366 / 365) := by
  refine ⟨rfl, rfl, fun d hd => toOrdinal_nextDay d hd, by decide, ?_⟩
  rw [year_fraction_act365]
  have h : toOrdinal ⟨2025, 1, 1⟩ - toOrdinal ⟨2024, 1, 1⟩ = 366 := by decide
  rw [h]; norm_num

/-- C5 witness: the ACT formulas evaluated at 2024-02-28 and 2024-03-01. -/
theorem yf_act_formula_witness :
    year_fraction ⟨2024, 2, 28⟩ ⟨2024, 3, 1⟩ "ACT/365"
      = .ok (((toOrdinal ⟨2024, 3, 1⟩ - toOrdinal ⟨2024, 2, 28⟩ : ℤ) : ℚ) / 365) ∧
    year_fraction ⟨2024, 2, 28⟩ ⟨2024, 3, 1⟩ "ACT/360"
      = .ok (((toOrdinal ⟨2024, 3, 1⟩ - toOrdinal ⟨2024, 2, 28⟩ : ℤ) : ℚ) / 360) ∧
    (∀ d : Date, d.Valid → toOrdinal d.nextDay = toOrdinal d + 1) ∧
    toOrdinal ⟨2025, 1, 1⟩ - toOrdinal ⟨2024, 1, 1⟩ = 366 ∧
    year_fraction ⟨2024, 1, 1⟩ ⟨2025, 1, 1⟩ "ACT/365" = .ok (366 / 365) :=
  yf_act_formula ⟨2024, 2, 28⟩ ⟨2024, 3, 1⟩ (by decide) (by decide)


lemma year_fraction_of_act365 (a b : Date) (dc : String) (h : pyUpper dc = "ACT/365") :
    year_fraction a b dc = .ok (((toOrdinal b - toOrdinal a : ℤ) : ℚ) / 365) := by
  simp only [year_fraction, h, if_true]

lemma year_fraction_of_act360 (a b : Date) (dc : String) (h : pyUpper dc = "ACT/360") :
    year_fraction a b dc = .ok (((toOrdinal b - toOrdinal a : ℤ) : ℚ) / 360) := by
  simp only [year_fraction, h, if_true]
  rfl

lemma year_fraction_of_30360 (a b : Date) (dc : String) (h : pyUpper dc = "30/360") :
    year_fraction a b dc = .ok ((days30360 a b : ℚ) / 360) := by
  simp only [year_fraction, h, if_true]
  rfl

/-- C2 counterexample: on input `"XYZ"`, `OptionType.from_str` raises a
diagnostic interpolating the lower-cased value `'xyz'`, not the original
`"XYZ"`: the message differs from the one carrying the original and contains
no upper-case `X` at all. -/
theorem fromStr_error_counterexample :
    OptionType.fromStr "XYZ"
      = .error (.valueError ("Unknown option type: " ++ pyRepr "xyz")) ∧
    ("Unknown option type: " ++ pyRepr "xyz")
      ≠ ("Unknown option type: " ++ pyRepr "XYZ") ∧
    (∀ c ∈ ("Unknown option type: " ++ pyRepr "xyz").data, c ≠ 'X') := by
  decide

/-- C2 (amended): for every string outside the alias set, `from_str` fails
with InvalidInput whose diagnostic carries the lower-cased, stripped
normalization of the input (the code rebinds `value` before raising), not
necessarily the original string. -/
theorem fromStr_error_diag (s : String) :
    (¬ (pyStrip (pyLower s) = "c" ∨ pyStrip (pyLower s) = "call" ∨
        pyStrip (pyLower s) = "p" ∨ pyStrip (pyLower s) = "put") →
      OptionType.fromStr s
        = .error (.valueError
            ("Unknown option type: " ++ pyRepr (pyStrip (pyLower s))))) ∧
    (¬ (pyStrip (pyLower s) = "e" ∨ pyStrip (pyLower s) = "euro" ∨
        pyStrip (pyLower s) = "european" ∨ pyStrip (pyLower s) = "a" ∨
        pyStrip (pyLower s) = "amer" ∨ pyStrip (pyLower s) = "american" ∨
        pyStrip (pyLower s) = "b" ∨ pyStrip (pyLower s) = "bermudan") →
      OptionStyle.fromStr s
        = .error (.valueError
            ("Unknown option style: " ++ pyRepr (pyStrip (pyLower s))))) := by
  constructor
  · intro h
    rw [not_or, not_or, not_or] at h
    obtain ⟨hc, hcall, hp, hput⟩ := h
    unfold OptionType.fromStr OptionType.classify
    rw [if_neg (by rintro (h | h); exacts [hc h, hcall h]),
      if_neg (by rintro (h | h); exacts [hp h, hput h])]
  · intro h
    rw [not_or, not_or, not_or, not_or, not_or, not_or, not_or] at h
    obtain ⟨he, heuro, heur, hA, hamer, hamr, hB, hberm⟩ := h
    unfold OptionStyle.fromStr OptionStyle.classify
    rw [if_neg (by rintro (h | h | h); exacts [he h, heuro h, heur h]),
      if_neg (by rintro (h | h | h); exacts [hA h, hamer h, hamr h]),
      if_neg (by rintro (h | h); exacts [hB h, hberm h])]

/-- C2 witness: the amended diagnostic shape at the non-alias input "abc". -/
theorem fromStr_error_diag_witness :
    ¬ (pyStrip (pyLower "abc") = "c" ∨ pyStrip (pyLower "abc") = "call" ∨
        pyStrip (pyLower "abc") = "p" ∨ pyStrip (pyLower "abc") = "put") ∧
    OptionType.fromStr "abc"
      = .error (.valueError
          ("Unknown option type: " ++ pyRepr (pyStrip (pyLower "abc")))) :=
  ⟨by decide, (fromStr_error_diag "abc").1 (by decide)⟩

/-- C6: `year_fraction` matches `day_count` case-insensitively (after
upper-casing) against exactly ACT/365, ACT/360 and 30/360; any other value
fails with InvalidInput naming the convention string exactly as supplied by
the caller (the original, not the upper-cased one). -/
theorem yf_convention_matching (a b : Date) (dc : String) :
    ((∃ q, year_fraction a b dc = .ok q) ↔
      (pyUpper dc = "ACT/365" ∨ pyUpper dc = "ACT/360" ∨ pyUpper dc = "30/360")) ∧
    (¬ (pyUpper dc = "ACT/365" ∨ pyUpper dc = "ACT/360" ∨ pyUpper dc = "30/360") →
      year_fraction a b dc
        = .error (.valueError ("Unsupported day count convention: " ++ pyRepr dc))) ∧
    year_fraction a b "ACT/400"
      = .error (.valueError ("Unsupported day count convention: " ++ pyRepr "ACT/400")) := by
  refine ⟨⟨?_, ?_⟩, ?_, rfl⟩
  · rintro ⟨q, hq⟩
    by_cases h1 : pyUpper dc = "ACT/365"
    · exact Or.inl h1
    by_cases h2 : pyUpper dc = "ACT/360"
    · exact Or.inr (Or.inl h2)
    by_cases h3 : pyUpper dc = "30/360"
    · exact Or.inr (Or.inr h3)
    rw [year_fraction_unsupported a b dc h1 h2 h3] at hq
    exact Except.noConfusion hq
  · rintro (h | h | h)
    · exact ⟨_, year_fraction_of_act365 a b dc h⟩
    · exact ⟨_, year_fraction_of_act360 a b dc h⟩
    · exact ⟨_, year_fraction_of_30360 a b dc h⟩
  · intro h
    rw [not_or, not_or] at h
    exact year_fraction_unsupported a b dc h.1 h.2.1 h.2.2

/-- C6 witness: the unsupported convention "Act/520" is rejected with a
message naming it verbatim. -/
theorem yf_convention_matching_witness :
    year_fraction ⟨2024, 1, 1⟩ ⟨2024, 6, 1⟩ "Act/520"
      = .error (.valueError ("Unsupported day count convention: " ++ pyRepr "Act/520")) :=
  (yf_convention_matching ⟨2024, 1, 1⟩ ⟨2024, 6, 1⟩ "Act/520").2.1 (by decide)

/-- C7: `OptionType.from_str` succeeds exactly on strings whose lower-cased,
stripped form is one of the aliases c, call, p, put, and is idempotent over
that set: re-parsing the `value` of a successfully parsed member returns the
same member, so `from_str(from_str(x).value) == from_str(x)`. -/
theorem optionType_fromStr_idem (x : String) :
    ((∃ t, OptionType.fromStr x = .ok t) ↔
      (pyStrip (pyLower x) = "c" ∨ pyStrip (pyLower x) = "call" ∨
        pyStrip (pyLower x) = "p" ∨ pyStrip (pyLower x) = "put")) ∧
    (∀ t, OptionType.fromStr x = .ok t → OptionType.fromStr t.value = .ok t) := by
  constructor
  · constructor
    · rintro ⟨t, ht⟩
      unfold OptionType.fromStr OptionType.classify at ht
      split_ifs at ht with h1 h2
      · rcases h1 with h | h
        · exact Or.inl h
        · exact Or.inr (Or.inl h)
      · rcases h2 with h | h
        · exact Or.inr (Or.inr (Or.inl h))
        · exact Or.inr (Or.inr (Or.inr h))
    · intro hmem
      unfold OptionType.fromStr
      rcases hmem with h | h | h | h <;> rw [h] <;> exact ⟨_, rfl⟩
  · intro t ht
    unfold OptionType.fromStr OptionType.classify at ht
    split_ifs at ht with h1 h2
    · cases ht; decide
    · cases ht; decide

/-- C7 witness: parsing " CALL " succeeds, its normalization is the alias
"call", and re-parsing the parsed member's value is stable. -/
theorem optionType_fromStr_idem_witness :
    OptionType.fromStr (OptionType.value OptionType.CALL) = .ok OptionType.CALL ∧
    (pyStrip (pyLower " CALL ") = "c" ∨ pyStrip (pyLower " CALL ") = "call" ∨
      pyStrip (pyLower " CALL ") = "p" ∨ pyStrip (pyLower " CALL ") = "put") :=
  ⟨(optionType_fromStr_idem " CALL ").2 OptionType.CALL (by decide), by decide⟩

/-- C3 counterexample: `BaseOption.__post_init__` only checks that `maturity`
is not `None`; a non-date maturity value passes construction, so an option
object with an invalid maturity can exist (contrary to the claim that any
non-date maturity fails with InvalidInput). -/
theorem nonDate_maturity_accepted :
    EuropeanOption.make ⟨"AAPL", 100, "EUR", "equity"⟩ 100
        (.nonDate "a string, not a date") (.enum .CALL) 1
      = .ok ⟨⟨"AAPL", 100, "EUR", "equity"⟩, 100, .nonDate "a string, not a date",
          .CALL, .EUROPEAN, 1⟩ := by
  decide

/-- C3 (amended): construction of `BaseOption` (directly or through the
`EuropeanOption`/`AmericanOption` constructors, which defer to the shared
`__post_init__`) enforces `strike > 0`, `maturity` is not `None`, and
`notional > 0`, failing with InvalidInput on each violation; it does not
check that `maturity` is actually a date. -/
theorem option_validation (u : Underlying) (strike notional : ℚ) (m : MaturityArg)
    (ot : OptionTypeArg) (t : OptionType) (hot : resolveOptionType ot = .ok t) :
    (EuropeanOption.make u strike m ot notional
      = BaseOption.postInit ⟨u, strike, m, t, .EUROPEAN, notional⟩) ∧
    (AmericanOption.make u strike m ot notional
      = BaseOption.postInit ⟨u, strike, m, t, .AMERICAN, notional⟩) ∧
    (∀ o : BaseOption,
      (BaseOption.postInit o = .ok o ↔
        0 < o.strike ∧ o.maturity ≠ .pyNone ∧ 0 < o.notional)) ∧
    (∀ o : BaseOption, o.strike ≤ 0 →
      BaseOption.postInit o
        = .error (.valueError "Strike must be strictly positive.")) ∧
    (∀ o : BaseOption, 0 < o.strike → o.maturity = .pyNone →
      BaseOption.postInit o
        = .error (.valueError "Maturity date must be provided.")) ∧
    (∀ o : BaseOption, 0 < o.strike → o.maturity ≠ .pyNone → o.notional ≤ 0 →
      BaseOption.postInit o
        = .error (.valueError "Notional must be strictly positive.")) := by
  refine ⟨?_, ?_, ?_, ?_, ?_, ?_⟩
  · unfold EuropeanOption.make
    rw [hot]
    rfl
  · unfold AmericanOption.make
    rw [hot]
    rfl
  · intro o
    unfold BaseOption.postInit
    split_ifs with h1 h2 h3
    · exact ⟨(fun h => nomatch h), fun h => absurd h1 (not_le.mpr h.1)⟩
    · exact ⟨(fun h => nomatch h), fun h => absurd h2 h.2.1⟩
    · exact ⟨(fun h => nomatch h), fun h => absurd h3 (not_le.mpr h.2.2)⟩
    · exact ⟨fun _ => ⟨not_le.mp h1, h2, not_le.mp h3⟩, fun _ => rfl⟩
  · intro o h
    unfold BaseOption.postInit
    rw [if_pos h]
  · intro o hs hm
    unfold BaseOption.postInit
    rw [if_neg (not_le.mpr hs), if_pos hm]
  · intro o hs hm hn
    unfold BaseOption.postInit
    rw [if_neg (not_le.mpr hs), if_neg hm, if_pos hn]

/-- C3 witness: a well-formed European call built through the public
constructor routes through the shared `__post_init__` validation. -/
theorem option_validation_witness :
    EuropeanOption.make ⟨"AAPL", 100, "EUR", "equity"⟩ 50 (.pyDate ⟨2025, 1, 1⟩)
        (.str "call") 2
      = BaseOption.postInit ⟨⟨"AAPL", 100, "EUR", "equity"⟩, 50,
          .pyDate ⟨2025, 1, 1⟩, .CALL, .EUROPEAN, 2⟩ :=
  (option_validation ⟨"AAPL", 100, "EUR", "equity"⟩ 50 2 (.pyDate ⟨2025, 1, 1⟩)
    (.str "call") .CALL (by decide)).1

/-- C8: with a positive strike and notional, a valid maturity date and a
valid option type (enum member or parseable string), `EuropeanOption` and
`AmericanOption` construction succeeds, and the style field is fixed to
EUROPEAN resp. AMERICAN by the constructor itself (style is not a
parameter). -/
theorem variant_style_fixed (u : Underlying) (strike notional : ℚ) (d : Date)
    (ot : OptionTypeArg) (t : OptionType) (hs : 0 < strike) (hn : 0 < notional)
    (hd : d.Valid) (hot : resolveOptionType ot = .ok t) :
    EuropeanOption.make u strike (.pyDate d) ot notional
      = .ok ⟨u, strike, .pyDate d, t, .EUROPEAN, notional⟩ ∧
    AmericanOption.make u strike (.pyDate d) ot notional
      = .ok ⟨u, strike, .pyDate d, t, .AMERICAN, notional⟩ ∧
    (EuropeanOption.make u strike (.pyDate d) ot notional).map BaseOption.style
      = .ok .EUROPEAN ∧
    (AmericanOption.make u strike (.pyDate d) ot notional).map BaseOption.style
      = .ok .AMERICAN := by
  have hpost : ∀ st : OptionStyle,
      BaseOption.postInit ⟨u, strike, .pyDate d, t, st, notional⟩
        = .ok ⟨u, strike, .pyDate d, t, st, notional⟩ := by
    intro st
    unfold BaseOption.postInit
    rw [if_neg (not_le.mpr hs), if_neg (by intro h; exact MaturityArg.noConfusion h),
      if_neg (not_le.mpr hn)]
  have he : EuropeanOption.make u strike (.pyDate d) ot notional
      = .ok ⟨u, strike, .pyDate d, t, .EUROPEAN, notional⟩ := by
    unfold EuropeanOption.make
    rw [hot]
    exact hpost .EUROPEAN
  have ham : AmericanOption.make u strike (.pyDate d) ot notional
      = .ok ⟨u, strike, .pyDate d, t, .AMERICAN, notional⟩ := by
    unfold AmericanOption.make
    rw [hot]
    exact hpost .AMERICAN
  refine ⟨he, ham, ?_, ?_⟩
  · rw [he]; rfl
  · rw [ham]; rfl

/-- C8 witness: a European and an American put built from the string "p"
with strike 80 and notional 3 at maturity 2026-06-30. -/
theorem variant_style_fixed_witness :
    EuropeanOption.make ⟨"SPX", 4000, "USD", "index"⟩ 80 (.pyDate ⟨2026, 6, 30⟩)
        (.str "p") 3
      = .ok ⟨⟨"SPX", 4000, "USD", "index"⟩, 80, .pyDate ⟨2026, 6, 30⟩, .PUT,
          .EUROPEAN, 3⟩ ∧
    AmericanOption.make ⟨"SPX", 4000, "USD", "index"⟩ 80 (.pyDate ⟨2026, 6, 30⟩)
        (.str "p") 3
      = .ok ⟨⟨"SPX", 4000, "USD", "index"⟩, 80, .pyDate ⟨2026, 6, 30⟩, .PUT,
          .AMERICAN, 3⟩ ∧
    (EuropeanOption.make ⟨"SPX", 4000, "USD", "index"⟩ 80 (.pyDate ⟨2026, 6, 30⟩)
        (.str "p") 3).map BaseOption.style = .ok .EUROPEAN ∧
    (AmericanOption.make ⟨"SPX", 4000, "USD", "index"⟩ 80 (.pyDate ⟨2026, 6, 30⟩)
        (.str "p") 3).map BaseOption.style = .ok .AMERICAN :=
  variant_style_fixed ⟨"SPX", 4000, "USD", "index"⟩ 80 3 ⟨2026, 6, 30⟩ (.str "p")
    .PUT (by decide) (by decide) (by decide) (by decide)

/-- C10: `Underlying` construction validates only `spot > 0` (failing with
InvalidInput otherwise) and stores every field verbatim, accepting any
symbol string including the empty string. -/
theorem underlying_validation (symbol currency asset_type : String) (spot : ℚ) :
    (0 < spot → Underlying.make symbol spot currency asset_type
      = .ok ⟨symbol, spot, currency, asset_type⟩) ∧
    (spot ≤ 0 → Underlying.make symbol spot currency asset_type
      = .error (.valueError "Underlying spot must be strictly positive.")) ∧
    (0 < spot → Underlying.make "" spot currency asset_type
      = .ok ⟨"", spot, currency, asset_type⟩) := by
  refine ⟨fun h => ?_, fun h => ?_, fun h => ?_⟩ <;> unfold Underlying.make
  · rw [if_neg (not_le.mpr h)]
  · rw [if_pos h]
  · rw [if_neg (not_le.mpr h)]

/-- C10 witness: the empty symbol with spot 100 is accepted and stored
verbatim. -/
theorem underlying_validation_witness :
    Underlying.make "" 100 "EUR" "equity" = .ok ⟨"", 100, "EUR", "equity"⟩ :=
  (underlying_validation "" "EUR" "equity" 100).1 (by decide)
